import Mathlib

/-!
Verification development for the weather-api-service repository
(lambda_function: retry_service.py, cache_service.py, external_api.py,
weather_service.py, config.py, models.py).

The Python modules are shallowly embedded:
  * Exceptions become the inductive `Exc`; a tuple of exception classes
    (the `retryable_exceptions` parameter) becomes a Boolean predicate on
    `Exc` playing the role of the `isinstance` test.
  * `random.uniform(-j, j)` in `calculate_delay` becomes an explicit
    jitter-offset argument; the retry loop likewise takes an oracle
    `offsets : Nat -> Rat` supplying the random draw of each attempt.
  * I/O against DynamoDB / the HTTP provider becomes per-attempt outcome
    oracles (`Nat -> Except Exc ...`), so a store or provider that fails on
    some attempts and succeeds on others is expressible.
  * Floats become rationals.
-/

/-- Embedded exception universe for the lambda modules.  Constructors mirror
the exception classes the code distinguishes: `clientError` is botocore's
`ClientError` (identified by its error code), `clientResponseError` is
`aiohttp.ClientResponseError` (a subclass of `aiohttp.ClientError`, carrying
an HTTP status), `clientConnectionError` stands for the remaining
`aiohttp.ClientError` transport failures, `timeoutError` is
`asyncio.TimeoutError`, `connectionError` the builtin `ConnectionError`,
`weatherAPIError` is external_api's `WeatherAPIError(message, status_code)`,
`cacheError` is cache_service's `CacheError`, and `retryError` is
retry_service's `RetryError`, whose message carries the attempt count
(`"failed after {n} attempts"`) and which stores the last underlying
exception (`None` only if the loop never ran). -/
inductive Exc where
  | clientError (code : String)
  | clientResponseError (status : Nat)
  | clientConnectionError
  | timeoutError
  | connectionError
  | weatherAPIError (message : String) (status : Option Nat)
  | cacheError (message : String)
  | retryError (attempts : Nat) (last : Option Exc)

/-- Python `isinstance(e, ClientError)` (botocore). -/
def Exc.isBotocoreClientError : Exc → Bool
  | .clientError _ => true
  | _ => false

/-- Python `isinstance(e, aiohttp.ClientError)`: covers response errors and
connection-level client errors. -/
def Exc.isAiohttpClientError : Exc → Bool
  | .clientResponseError _ => true
  | .clientConnectionError => true
  | _ => false

/-- Python `isinstance(e, aiohttp.ClientResponseError)`. -/
def Exc.isAiohttpClientResponseError : Exc → Bool
  | .clientResponseError _ => true
  | _ => false

/-- Python `isinstance(e, WeatherAPIError)`. -/
def Exc.isWeatherAPIError : Exc → Bool
  | .weatherAPIError _ _ => true
  | _ => false

/-- Python `isinstance(e, CacheError)`. -/
def Exc.isCacheError : Exc → Bool
  | .cacheError _ => true
  | _ => false

/-- retry_service.RetryConfig (the class in retry_service.py, not the
constants holder in config.py). -/
structure RetryConfig where
  max_attempts : Nat := 3
  base_delay : ℚ := 1
  backoff_multiplier : ℚ := 2
  max_delay : ℚ := 60
  jitter : Bool := true
  jitter_range : ℚ := 1/10

/-- retry_service.calculate_delay.  `jitter_offset` is the value the source
draws via `random.uniform(-jitter_amount, jitter_amount)`; it is passed in
explicitly so the function is deterministic. -/
def calculate_delay (attempt : Nat) (config : RetryConfig) (jitter_offset : ℚ) : ℚ :=
  let delay := config.base_delay * config.backoff_multiplier ^ (attempt - 1)
  let delay := min delay config.max_delay
  if config.jitter then max 0 (delay + jitter_offset) else delay

/-- The `non_retryable_codes` list in retry_service.should_retry_exception. -/
def non_retryable_codes : List String :=
  ["AccessDenied", "InvalidParameterValue", "ValidationException",
   "ResourceNotFound", "ItemNotFound"]

/-- The `retryable_codes` list in retry_service.should_retry_exception. -/
def retryable_codes : List String :=
  ["ThrottlingException", "ProvisionedThroughputExceededException",
   "RequestLimitExceeded", "ServiceUnavailable", "InternalServerError"]

/-- retry_service.should_retry_exception.  `retryable_exceptions` is the
isinstance test on the tuple of retryable exception classes. -/
def should_retry_exception (exception : Exc)
    (retryable_exceptions : Exc → Bool) : Bool :=
  if !(retryable_exceptions exception) then false
  else
    match exception with
    | .clientResponseError status =>
        if 400 ≤ status ∧ status < 500 then false else true
    | .clientError error_code =>
        if non_retryable_codes.contains error_code then false
        else retryable_codes.contains error_code || error_code.startsWith "5"
    | _ => true

/-- Observable outcome of one run of a retry-wrapped operation: the final
result (or raised exception), how many times the wrapped function was
invoked, and the delays slept between attempts. -/
structure RetryOutcome (α : Type) where
  result : Except Exc α
  calls : Nat
  delays : List ℚ

/-- Body of the `for attempt in range(1, config.max_attempts + 1)` loop of
retry_service.retry_sync (retry_async is word-for-word identical apart from
`await`/`asyncio.sleep`).  `fuel` counts the attempts still available, so the
loop invariant is `fuel + attempt = config.max_attempts + 1`; `fuel = 0` is
the loop falling off the end with `last` as `last_exception`.  `op n` is the
outcome of the wrapped function on its n-th invocation and `offsets n` the
jitter draw used for the delay after attempt n. -/
def retryLoop {α : Type} (config : RetryConfig) (retryable_exceptions : Exc → Bool)
    (op : Nat → Except Exc α) (offsets : Nat → ℚ) :
    Nat → Nat → Option Exc → RetryOutcome α
  | 0, _, last => ⟨.error (.retryError config.max_attempts last), 0, []⟩
  | fuel + 1, attempt, _ =>
    match op attempt with
    | .ok result => ⟨.ok result, 1, []⟩
    | .error e =>
      if !(should_retry_exception e retryable_exceptions) then
        ⟨.error e, 1, []⟩
      else if fuel = 0 then
        ⟨.error (.retryError config.max_attempts (some e)), 1, []⟩
      else
        let delay := calculate_delay attempt config (offsets attempt)
        let rest := retryLoop config retryable_exceptions op offsets fuel (attempt + 1) (some e)
        ⟨rest.result, rest.calls + 1, delay :: rest.delays⟩

/-- retry_service.retry_sync applied to an operation: run the retry loop from
attempt 1 with `last_exception = None`. -/
def retry_sync {α : Type} (config : RetryConfig) (retryable_exceptions : Exc → Bool)
    (op : Nat → Except Exc α) (offsets : Nat → ℚ) : RetryOutcome α :=
  retryLoop config retryable_exceptions op offsets config.max_attempts 1 none

/-- The `retryable_exceptions` tuple of retry_service.dynamodb_retry:
`(ClientError,)`. -/
def dynamodb_retryable_exceptions : Exc → Bool := Exc.isBotocoreClientError

/-- The `retryable_exceptions` tuple of retry_service.api_retry:
`(aiohttp.ClientError, aiohttp.ServerTimeoutError, asyncio.TimeoutError,
ConnectionError)` — `ServerTimeoutError` is already an `aiohttp.ClientError`
subclass. -/
def api_retryable_exceptions : Exc → Bool
  | .clientResponseError _ => true
  | .clientConnectionError => true
  | .timeoutError => true
  | .connectionError => true
  | _ => false

/-- config.RetryConfig DYNAMODB_* values (config.py). -/
def dynamodbRetryConfig : RetryConfig :=
  { max_attempts := 3, base_delay := 1/2, backoff_multiplier := 2,
    max_delay := 10, jitter := true, jitter_range := 1/10 }

/-- config.RetryConfig API_* values (config.py). -/
def apiRetryConfig : RetryConfig :=
  { max_attempts := 3, base_delay := 1, backoff_multiplier := 2,
    max_delay := 30, jitter := true, jitter_range := 1/10 }


/-- Python whitespace for `str.strip()` (ASCII fragment). -/
def isPythonSpace (c : Char) : Bool :=
  c = ' ' || c = '\t' || c = '\n' || c = '\r' || c = '\x0b' || c = '\x0c'

/-- List form of Python `str.strip()`: drop leading and trailing whitespace. -/
def pyStripList (l : List Char) : List Char :=
  ((l.dropWhile isPythonSpace).reverse.dropWhile isPythonSpace).reverse

/-- Python `str.strip()`. -/
def pyStrip (s : String) : String := ⟨pyStripList s.data⟩

/-- List form of Python `str.title()` restricted to ASCII, where a character
is cased iff it is a letter: a letter following a non-letter is uppercased,
a letter following a letter is lowercased, everything else passes through.
The accumulator records whether the previous character was cased. -/
def pyTitleList : Bool → List Char → List Char
  | _, [] => []
  | prev_cased, c :: rest =>
    if c.isAlpha then
      (if prev_cased then c.toLower else c.toUpper) :: pyTitleList true rest
    else
      c :: pyTitleList false rest

/-- Python `str.title()` (ASCII). -/
def pyTitle (s : String) : String := ⟨pyTitleList false s.data⟩

/-- The normalization inside cache_service._generate_cache_key:
`city.strip().title()`. -/
def normalize_city (city : String) : String := pyTitle (pyStrip city)

/-- cache_service.DynamoDBCacheService._generate_cache_key. -/
def _generate_cache_key (city : String) : String :=
  "WEATHER#" ++ normalize_city city

/-- models.WeatherResponse. -/
structure WeatherResponse where
  city : String
  temperature : ℚ
  description : String
  humidity : ℤ
  timestamp : String
  deriving DecidableEq

/-- The DynamoDB item written by cache_service (payload fields beside the
constant keys PK / SK="DATA"); `expires_at` is epoch seconds.  The source
reads it back with `item.get("expires_at", 0)`; the embedded item always
carries the field, matching every item the service itself writes. -/
structure CacheItem where
  city : String
  temperature : ℚ
  description : String
  humidity : ℤ
  timestamp : String
  expires_at : ℤ
  created_at : String
  deriving DecidableEq

/-- cache_service.DynamoDBCacheService._is_cache_valid: an absent/empty item
is invalid, otherwise valid iff `current_time < expires_at`. -/
def _is_cache_valid (item : Option CacheItem) (current_time : ℤ) : Bool :=
  match item with
  | none => false
  | some item => decide (current_time < item.expires_at)

/-- The WeatherResponse rebuilt from a cache item in
DynamoDBCacheService.get_weather / batch_get_weather. -/
def weather_response_of_item (item : CacheItem) : WeatherResponse :=
  { city := item.city, temperature := item.temperature,
    description := item.description, humidity := item.humidity,
    timestamp := item.timestamp }

/-- The Item dict assembled by DynamoDBCacheService.set_weather /
batch_set_weather before writing. -/
def cache_item_of (weather_data : WeatherResponse) (expires_at : ℤ)
    (created_at : String) : CacheItem :=
  { city := weather_data.city, temperature := weather_data.temperature,
    description := weather_data.description, humidity := weather_data.humidity,
    timestamp := weather_data.timestamp, expires_at := expires_at,
    created_at := created_at }

/-- Effect of `table.put_item` on a store modelled as a key-to-item map. -/
def put_item (table : String → Option CacheItem) (key : String)
    (item : CacheItem) : String → Option CacheItem :=
  fun k => if k = key then some item else table k

/-- The inner function `_get_weather_with_retry` of
DynamoDBCacheService.get_weather, one invocation: call `table.get_item`
(modelled by the per-attempt oracle `table`; `none` = no "Item" in the
response), and return the rebuilt record if the item is present and valid,
else None. -/
def _get_weather_with_retry (table : Nat → String → Except Exc (Option CacheItem))
    (now : ℤ) (city : String) (attempt : Nat) :
    Except Exc (Option WeatherResponse) :=
  match table attempt (_generate_cache_key city) with
  | .error e => .error e
  | .ok none => .ok none
  | .ok (some item) =>
    if _is_cache_valid (some item) now then
      .ok (some (weather_response_of_item item))
    else
      .ok none

/-- DynamoDBCacheService.get_weather: the inner function wrapped by
`dynamodb_retry`, with the surrounding `try/except (ClientError,
CacheError)` converting those two exception classes to `None`. -/
def DynamoDBCacheService.get_weather (config : RetryConfig) (offsets : Nat → ℚ)
    (table : Nat → String → Except Exc (Option CacheItem)) (now : ℤ)
    (city : String) : Except Exc (Option WeatherResponse) :=
  match (retry_sync config dynamodb_retryable_exceptions
      (_get_weather_with_retry table now city) offsets).result with
  | .ok v => .ok v
  | .error e =>
    if e.isBotocoreClientError || e.isCacheError then .ok none else .error e

/-- The inner function `_set_weather_with_retry` of
DynamoDBCacheService.set_weather, one invocation: `table.put_item`
(modelled by the per-attempt oracle `put`), then True. -/
def _set_weather_with_retry (put : Nat → Except Exc Unit) (attempt : Nat) :
    Except Exc Bool :=
  match put attempt with
  | .error e => .error e
  | .ok _ => .ok true

/-- DynamoDBCacheService.set_weather: the inner function wrapped by
`dynamodb_retry`, with the boundary converting ClientError and CacheError
to `False`. -/
def DynamoDBCacheService.set_weather (config : RetryConfig) (offsets : Nat → ℚ)
    (put : Nat → Except Exc Unit) : Except Exc Bool :=
  match (retry_sync config dynamodb_retryable_exceptions
      (_set_weather_with_retry put) offsets).result with
  | .ok b => .ok b
  | .error e =>
    if e.isBotocoreClientError || e.isCacheError then .ok false else .error e

/-- The key list DynamoDBCacheService.batch_get_weather sends to
`batch_get_item`: one key per entry of `cities[:100]` (no de-duplication in
the source). -/
def batch_get_request_keys (cities : List String) : List String :=
  (cities.take 100).map _generate_cache_key

/-- Python dict assignment `m[k] = v` on a dict modelled as an association
list: overwrite in place if the key exists, else append. -/
def dictSet {α : Type} : List (String × α) → String → α → List (String × α)
  | [], k, v => [(k, v)]
  | (k', v') :: rest, k, v =>
    if k' = k then (k, v) :: rest else (k', v') :: dictSet rest k v

/-- The inner function `_batch_get_weather_with_retry` of
DynamoDBCacheService.batch_get_weather, one invocation: `batch_get_item`
on the request keys (its returned item list modelled by the per-attempt
oracle `respond`), then collect the valid items into the `cached_weather`
dict keyed by the stored city field. -/
def _batch_get_weather_with_retry
    (respond : Nat → List String → Except Exc (List CacheItem)) (now : ℤ)
    (cities : List String) (attempt : Nat) :
    Except Exc (List (String × WeatherResponse)) :=
  match respond attempt (batch_get_request_keys cities) with
  | .error e => .error e
  | .ok items =>
    .ok (items.foldl (fun cached_weather item =>
      if _is_cache_valid (some item) now then
        dictSet cached_weather item.city (weather_response_of_item item)
      else
        cached_weather) [])

/-- DynamoDBCacheService.batch_get_weather: empty input short-circuits to an
empty dict, otherwise the inner function is wrapped by `dynamodb_retry` and
the boundary converts ClientError / CacheError to an empty dict. -/
def DynamoDBCacheService.batch_get_weather (config : RetryConfig)
    (offsets : Nat → ℚ)
    (respond : Nat → List String → Except Exc (List CacheItem)) (now : ℤ)
    (cities : List String) : Except Exc (List (String × WeatherResponse)) :=
  if cities.isEmpty then .ok []
  else
    match (retry_sync config dynamodb_retryable_exceptions
        (_batch_get_weather_with_retry respond now cities) offsets).result with
    | .ok m => .ok m
    | .error e =>
      if e.isBotocoreClientError || e.isCacheError then .ok [] else .error e

/-- The `batch_items` list DynamoDBCacheService.batch_set_weather assembles:
one put request per entry of `weather_data_list[:25]`, all sharing one
`expires_at`. -/
def batch_set_items (weather_data_list : List WeatherResponse) (expires_at : ℤ)
    (created_at : String) : List (String × CacheItem) :=
  (weather_data_list.take 25).map
    (fun w => (_generate_cache_key w.city, cache_item_of w expires_at created_at))

/-- The inner function `_batch_set_weather_with_retry` of
DynamoDBCacheService.batch_set_weather, one invocation: `batch_write_item`
on the assembled `batch_items` (its outcome modelled by the per-attempt
oracle `write`), then `len(batch_items)`. -/
def _batch_set_weather_with_retry
    (write : Nat → List (String × CacheItem) → Except Exc Unit)
    (batch_items : List (String × CacheItem)) (attempt : Nat) :
    Except Exc Nat :=
  match write attempt batch_items with
  | .error e => .error e
  | .ok _ => .ok batch_items.length

/-- DynamoDBCacheService.batch_set_weather: empty input short-circuits to 0,
otherwise the inner function is wrapped by `dynamodb_retry` and the boundary
converts ClientError / CacheError to 0. -/
def DynamoDBCacheService.batch_set_weather (config : RetryConfig)
    (offsets : Nat → ℚ)
    (write : Nat → List (String × CacheItem) → Except Exc Unit)
    (weather_data_list : List WeatherResponse) (expires_at : ℤ)
    (created_at : String) : Except Exc Nat :=
  if weather_data_list.isEmpty then .ok 0
  else
    match (retry_sync config dynamodb_retryable_exceptions
        (_batch_set_weather_with_retry write
          (batch_set_items weather_data_list expires_at created_at))
        offsets).result with
    | .ok n => .ok n
    | .error e =>
      if e.isBotocoreClientError || e.isCacheError then .ok 0 else .error e

/-- Order-preserving de-duplication, Python `list(dict.fromkeys(cities))`
(weather_service.get_batch_weather). -/
def dedupFirstAux (seen : List String) : List String → List String
  | [] => []
  | c :: rest =>
    if seen.contains c then dedupFirstAux seen rest
    else c :: dedupFirstAux (c :: seen) rest

/-- First-occurrence de-duplication of a city list. -/
def dedup_first (cities : List String) : List String := dedupFirstAux [] cities


/-- external_api.OpenWeatherMapResponse.  `main` and `weather` are dicts /
dict lists in the source; the embedding keeps exactly the fields the
properties read: `main_temp` is `main["temp"]` (Kelvin) when present,
`main_humidity` is `main["humidity"]` when present, and `weather` holds the
`description` value of each weather-condition entry (`none` when the entry
has no description key). -/
structure OpenWeatherMapResponse where
  name : String
  main_temp : Option ℚ
  main_humidity : Option ℤ
  weather : List (Option String)
  dt : ℤ
  deriving DecidableEq

/-- OpenWeatherMapResponse.temperature: `main["temp"] - 273.15`, or 0.0 on
KeyError. -/
def OpenWeatherMapResponse.temperature (r : OpenWeatherMapResponse) : ℚ :=
  match r.main_temp with
  | some t => t - 27315/100
  | none => 0

/-- OpenWeatherMapResponse.humidity: `main["humidity"]`, or 0 on KeyError. -/
def OpenWeatherMapResponse.humidity (r : OpenWeatherMapResponse) : ℤ :=
  match r.main_humidity with
  | some h => h
  | none => 0

/-- OpenWeatherMapResponse.description: first weather entry's description,
else "Unknown". -/
def OpenWeatherMapResponse.description (r : OpenWeatherMapResponse) : String :=
  match r.weather with
  | [] => "Unknown"
  | d :: _ => d.getD "Unknown"

/-- One attempt's interaction with the provider, as seen by the body of
`_get_weather_with_retry` in external_api.OpenWeatherMapClient.get_weather:
either an HTTP response arrived (200 carrying a parsed payload, or a non-200
status whose body yields `response_data.get("message", ...)`), or the HTTP
client raised a transport exception. -/
inductive ProviderAttempt where
  | success (data : OpenWeatherMapResponse)
  | status (code : Nat) (message : String)
  | network (e : Exc)

/-- Body of `_get_weather_with_retry` for one attempt: validate the city,
then classify the HTTP outcome exactly as the source does (200 → parsed
payload; 404 → WeatherAPIError with the city name; 401 → WeatherAPIError
"Invalid API key"; 5xx → aiohttp.ClientResponseError so the retry predicate
retries it; other statuses → WeatherAPIError with the body message). -/
def get_weather_request (city : String) (outcome : ProviderAttempt) :
    Except Exc OpenWeatherMapResponse :=
  if city = "" ∨ pyStrip city = "" then
    .error (.weatherAPIError "City name cannot be empty" none)
  else
    match outcome with
    | .success data => .ok data
    | .network e => .error e
    | .status code message =>
      if code = 404 then
        .error (.weatherAPIError ("City \x27" ++ city ++ "\x27 not found") (some 404))
      else if code = 401 then
        .error (.weatherAPIError "Invalid API key" (some 401))
      else if 500 ≤ code ∧ code < 600 then
        .error (.clientResponseError code)
      else
        .error (.weatherAPIError message (some code))

/-- external_api.OpenWeatherMapClient.get_weather: the request body wrapped
by `api_retry` (retry_async with the API retryable-exception tuple).
`attempts n` is the provider interaction of the n-th invocation. -/
def OpenWeatherMapClient.get_weather (config : RetryConfig) (offsets : Nat → ℚ)
    (attempts : Nat → ProviderAttempt) (city : String) :
    Except Exc OpenWeatherMapResponse :=
  (retry_sync config api_retryable_exceptions
    (fun n => get_weather_request city (attempts n)) offsets).result

/-- Python `isinstance(e, asyncio.TimeoutError)`. -/
def Exc.isAsyncioTimeout : Exc → Bool
  | .timeoutError => true
  | _ => false

/-- external_api.OpenWeatherMapClient.health_check: `get_weather("London")`
with the two except clauses of the source — `except WeatherAPIError` and
`except (aiohttp.ClientError, asyncio.TimeoutError)` — each returning False;
anything else propagates. -/
def OpenWeatherMapClient.health_check (config : RetryConfig) (offsets : Nat → ℚ)
    (attempts : Nat → ProviderAttempt) : Except Exc Bool :=
  match OpenWeatherMapClient.get_weather config offsets attempts "London" with
  | .ok _ => .ok true
  | .error e =>
    if e.isWeatherAPIError then .ok false
    else if e.isAiohttpClientError || e.isAsyncioTimeout then .ok false
    else .error e

/-- Round-half-to-even on rationals, the semantics of Python's `round` (up
to binary floating-point representation error, which the embedding elides). -/
def roundHalfEven (q : ℚ) : ℤ :=
  let f := Int.floor q
  let frac := q - f
  if frac < 1/2 then f
  else if 1/2 < frac then f + 1
  else if f % 2 = 0 then f else f + 1

/-- Python `round(q, 1)`. -/
def pyRound1 (q : ℚ) : ℚ := (roundHalfEven (q * 10) : ℚ) / 10

/-- weather_service.WeatherService._convert_to_weather_response.  `now_iso`
stands for `datetime.now(timezone.utc).isoformat()`. -/
def _convert_to_weather_response (api_response : OpenWeatherMapResponse)
    (now_iso : String) : WeatherResponse :=
  { city := api_response.name,
    temperature := pyRound1 api_response.temperature,
    description := pyTitle api_response.description,
    humidity := api_response.humidity,
    timestamp := now_iso }

/-- Observable outcome of WeatherService.get_weather: the returned value or
raised exception, whether the provider client was invoked, and the record
passed to `cache_service.set_weather` (whose boolean result the source
discards), if any. -/
structure SingleWeatherOutcome where
  result : Except Exc WeatherResponse
  provider_called : Bool
  cache_write : Option WeatherResponse

/-- weather_service.WeatherService.get_weather, with the cache service
present and modelled at its interface: `cached` is what
`cache_service.get_weather(city)` returns (an Optional — see
DynamoDBCacheService.get_weather for that boundary) and `provider` is what
`api_client.get_weather(city)` returns or raises.  `set_result` is the
boolean `cache_service.set_weather(response)` returns; the source discards
it, so the body below never reads it (stated as a parameter so independence
from it is expressible).  The source's `except WeatherAPIError: raise`
passes a provider WeatherAPIError through unchanged; the final
`except Exception` wraps anything else into
`WeatherAPIError("Service error for {city}")`. -/
def WeatherService.get_weather (cached : Option WeatherResponse)
    (provider : Except Exc OpenWeatherMapResponse) (set_result : Bool)
    (now_iso : String) (city : String) : SingleWeatherOutcome :=
  match cached with
  | some cached_response => ⟨.ok cached_response, false, none⟩
  | none =>
    match provider with
    | .ok weather_data =>
      let response := _convert_to_weather_response weather_data now_iso
      ⟨.ok response, true, some response⟩
    | .error e =>
      if e.isWeatherAPIError then ⟨.error e, true, none⟩
      else ⟨.error (.weatherAPIError ("Service error for " ++ city) none), true, none⟩

/-- models.BatchWeatherResponse. -/
structure BatchWeatherResponse where
  results : List WeatherResponse
  total_cities : Nat
  successful_requests : Nat
  deriving DecidableEq

/-- weather_service.WeatherService.get_batch_weather, with the collaborators
at their interfaces: `cache_lookup` is `cache_service.batch_get_weather`
applied to the unique city list (a dict city → record), `api_lookup` is
`api_client.get_batch_weather` applied to the cities still to fetch.  The
assembly loop appends, for each unique city in order, its cached record if
present, else its freshly fetched record if present, else nothing.  (The
best-effort `batch_set_weather` call the source makes with the fresh
results has no influence on the returned value and is not recorded here.) -/
def WeatherService.get_batch_weather
    (cache_lookup : List String → List (String × WeatherResponse))
    (api_lookup : List String → List (String × OpenWeatherMapResponse))
    (now_iso : String) (cities : List String) (max_cities : Nat) :
    Except Exc BatchWeatherResponse :=
  if cities.isEmpty then
    .error (.weatherAPIError "Cities list cannot be empty" none)
  else if max_cities < cities.length then
    .error (.weatherAPIError
      ("Maximum " ++ toString max_cities ++ " cities allowed per batch request") none)
  else
    let unique_cities := dedup_first cities
    let cached_results := cache_lookup unique_cities
    let cities_to_fetch :=
      unique_cities.filter (fun c => (cached_results.lookup c).isNone)
    let weather_data_map := api_lookup cities_to_fetch
    let api_results := cities_to_fetch.foldl (fun acc c =>
      match weather_data_map.lookup c with
      | some w => dictSet acc c (_convert_to_weather_response w now_iso)
      | none => acc) []
    let results := unique_cities.filterMap (fun c =>
      (cached_results.lookup c).orElse (fun _ => api_results.lookup c))
    .ok ⟨results, unique_cities.length, results.length⟩

/-- Fixture: a cache item for Seoul with the given expiry. -/
def sampleItem (expires_at : ℤ) : CacheItem :=
  ⟨"Seoul", 20, "Clear Sky", 50, "2026-01-01T00:00:00", expires_at,
   "2026-01-01T00:00:00"⟩

/-- Fixture: a weather record for Seoul. -/
def sampleRecord : WeatherResponse :=
  ⟨"Seoul", 20, "Clear Sky", 50, "2026-01-01T00:00:00"⟩

/-- Fixture: a weather record whose city field uses a non-canonical
spelling. -/
def spelledRecord : WeatherResponse :=
  ⟨"  seoul ", 20, "Clear Sky", 50, "2026-01-01T00:00:00"⟩

/-- Fixture: a provider payload for Paris (295.15 K = 22 °C). -/
def sampleOWM : OpenWeatherMapResponse :=
  ⟨"Paris", some (29515/100), some 40, [some "clear sky"], 0⟩

/-- Fixture: n distinct weather records. -/
def manyRecords (n : Nat) : List WeatherResponse :=
  (List.range n).map (fun i => ⟨"City" ++ toString i, 20, "Clear", 50, "ts"⟩)

/-- Key-list construction transcribed from the spec wording for batchGet
("de-duplicates and caps the key list at the store's batch-read limit
(100)"), stated only for comparison against the code's
`batch_get_request_keys`. -/
def batch_get_request_keys_spec (cities : List String) : List String :=
  ((dedup_first cities).take 100).map _generate_cache_key

/-- One step of the retry loop when at least two attempts remain and the
current attempt raises a retryable exception: sleep and recurse. -/
theorem retryLoop_retry_step_aux {α : Type} (config : RetryConfig)
    (rex : Exc → Bool) (op : Nat → Except Exc α) (offsets : Nat → ℚ)
    (g attempt : Nat) (last : Option Exc) (e : Exc)
    (hop : op attempt = .error e)
    (hretry : should_retry_exception e rex = true) :
    retryLoop config rex op offsets (g + 1 + 1) attempt last
      = ⟨(retryLoop config rex op offsets (g + 1) (attempt + 1) (some e)).result,
         (retryLoop config rex op offsets (g + 1) (attempt + 1) (some e)).calls + 1,
         calculate_delay attempt config (offsets attempt)
           :: (retryLoop config rex op offsets (g + 1) (attempt + 1) (some e)).delays⟩ := by
  conv_lhs => rw [retryLoop]
  rw [hop]
  simp [hretry]

/-- Exhaustion behaviour of the retry loop: if every invocation raises a
retryable exception, a loop given `f + 1` remaining attempts starting at
`attempt` performs exactly `f + 1` invocations and ends in `RetryError`
wrapping the exception of the final attempt `attempt + f`. -/
theorem retryLoop_exhaust_aux {α : Type} (config : RetryConfig) (rex : Exc → Bool)
    (op : Nat → Except Exc α) (offsets : Nat → ℚ) (err : Nat → Exc)
    (hop : ∀ n, op n = .error (err n))
    (hretry : ∀ n, should_retry_exception (err n) rex = true) :
    ∀ (f attempt : Nat) (last : Option Exc),
      (retryLoop config rex op offsets (f + 1) attempt last).result
          = .error (.retryError config.max_attempts (some (err (attempt + f))))
        ∧ (retryLoop config rex op offsets (f + 1) attempt last).calls = f + 1 := by
  intro f
  induction f with
  | zero =>
    intro attempt last
    simp [retryLoop, hop, hretry]
  | succ g ih =>
    intro attempt last
    have h := ih (attempt + 1) (some (err attempt))
    have harith : attempt + 1 + g = attempt + (g + 1) := by omega
    rw [harith] at h
    rw [retryLoop_retry_step_aux config rex op offsets g attempt last
      (err attempt) (hop attempt) (hretry attempt)]
    exact ⟨h.1, by rw [h.2]⟩

/-- First-attempt success short-circuits the retry loop. -/
theorem retryLoop_first_success_aux {α : Type} (config : RetryConfig)
    (rex : Exc → Bool) (op : Nat → Except Exc α) (offsets : Nat → ℚ) (v : α)
    (m attempt : Nat) (last : Option Exc) (h : op attempt = .ok v) :
    retryLoop config rex op offsets (m + 1) attempt last = ⟨.ok v, 1, []⟩ := by
  simp [retryLoop, h]

/-- retry_sync on an operation that succeeds on its first invocation, under
any config with at least one attempt: the result is returned immediately. -/
theorem retry_sync_first_success_aux {α : Type} (config : RetryConfig)
    (rex : Exc → Bool) (op : Nat → Except Exc α) (offsets : Nat → ℚ) (v : α)
    (hN : 1 ≤ config.max_attempts) (h : op 1 = .ok v) :
    retry_sync config rex op offsets = ⟨.ok v, 1, []⟩ := by
  obtain ⟨m, hm⟩ : ∃ m, config.max_attempts = m + 1 :=
    ⟨config.max_attempts - 1, by omega⟩
  unfold retry_sync
  rw [hm]
  exact retryLoop_first_success_aux config rex op offsets v m 1 none h

/-- C3: for every operation that raises a retryable error on every attempt
and every RetryConfig with maxAttempts = N ≥ 1, the retry executor invokes
the operation exactly N times and then raises RetryError carrying the
attempt count N and the last underlying error (the one raised by attempt
N). -/
theorem retry_sync_exhaustion {α : Type} (config : RetryConfig) (rex : Exc → Bool)
    (op : Nat → Except Exc α) (offsets : Nat → ℚ) (err : Nat → Exc)
    (hN : 1 ≤ config.max_attempts)
    (hop : ∀ n, op n = .error (err n))
    (hretry : ∀ n, should_retry_exception (err n) rex = true) :
    (retry_sync config rex op offsets).calls = config.max_attempts ∧
    (retry_sync config rex op offsets).result
      = .error (.retryError config.max_attempts (some (err config.max_attempts))) := by
  obtain ⟨m, hm⟩ : ∃ m, config.max_attempts = m + 1 :=
    ⟨config.max_attempts - 1, by omega⟩
  have h := retryLoop_exhaust_aux config rex op offsets err hop hretry m 1 none
  have harith : 1 + m = config.max_attempts := by omega
  rw [harith] at h
  unfold retry_sync
  have hfuel : retryLoop config rex op offsets config.max_attempts 1 none
      = retryLoop config rex op offsets (m + 1) 1 none := by rw [hm]
  rw [hfuel]
  exact ⟨by rw [h.2, hm], h.1⟩

/-- Witness for C3: a DynamoDB operation throttled on every attempt, with
the production DynamoDB retry configuration (3 attempts), is invoked 3 times
and ends in RetryError{attempts = 3} wrapping the throttling error. -/
theorem retry_sync_exhaustion_witness :
    (retry_sync dynamodbRetryConfig dynamodb_retryable_exceptions
      (fun _ => (.error (.clientError "ThrottlingException") : Except Exc Bool))
      (fun _ => 0)).calls = 3 ∧
    (retry_sync dynamodbRetryConfig dynamodb_retryable_exceptions
      (fun _ => (.error (.clientError "ThrottlingException") : Except Exc Bool))
      (fun _ => 0)).result
      = .error (.retryError 3 (some (.clientError "ThrottlingException"))) :=
  retry_sync_exhaustion dynamodbRetryConfig dynamodb_retryable_exceptions
    (fun _ => .error (.clientError "ThrottlingException")) (fun _ => 0)
    (fun _ => .clientError "ThrottlingException")
    (by decide) (fun _ => rfl) (fun _ => rfl)

/-- C4: an operation whose first invocation raises an error classified
non-retryable is invoked exactly once, no delay is slept, and the original
error is propagated unchanged (not wrapped), for any config with
maxAttempts ≥ 1 (the domain §3 of the spec gives RetryConfig). -/
theorem retry_sync_non_retryable {α : Type} (config : RetryConfig)
    (rex : Exc → Bool) (op : Nat → Except Exc α) (offsets : Nat → ℚ) (e : Exc)
    (hN : 1 ≤ config.max_attempts)
    (hop : op 1 = .error e)
    (hnoretry : should_retry_exception e rex = false) :
    retry_sync config rex op offsets = ⟨.error e, 1, []⟩ := by
  obtain ⟨m, hm⟩ : ∃ m, config.max_attempts = m + 1 :=
    ⟨config.max_attempts - 1, by omega⟩
  unfold retry_sync
  rw [hm]
  simp [retryLoop, hop, hnoretry]

/-- Witness for C4: an HTTP-401 WeatherAPIError under the production API
retry configuration is propagated unchanged after a single invocation with
no delay. -/
theorem retry_sync_non_retryable_witness :
    retry_sync apiRetryConfig api_retryable_exceptions
      (fun _ => (.error (.weatherAPIError "Invalid API key" (some 401)) : Except Exc Bool))
      (fun _ => 0)
      = ⟨.error (.weatherAPIError "Invalid API key" (some 401)), 1, []⟩ :=
  retry_sync_non_retryable apiRetryConfig api_retryable_exceptions
    (fun _ => .error (.weatherAPIError "Invalid API key" (some 401))) (fun _ => 0)
    (.weatherAPIError "Invalid API key" (some 401)) (by decide) rfl rfl

/-- C5: with jitter disabled the delay before attempt n+1 (computed from
attempt number n) is exactly min(baseDelay * multiplier^(n-1), maxDelay);
with jitter enabled and the uniform draw lying in
[-delay*jitterRange, delay*jitterRange], the result (floored at 0) lies in
[max(0, delay*(1-jitterRange)), delay*(1+jitterRange)]. -/
theorem calculate_delay_spec (attempt : Nat) (config : RetryConfig)
    (jitter_offset : ℚ)
    (hb : 0 ≤ config.base_delay) (hm : 0 ≤ config.backoff_multiplier)
    (hd : 0 ≤ config.max_delay) :
    (config.jitter = false →
      calculate_delay attempt config jitter_offset
        = min (config.base_delay * config.backoff_multiplier ^ (attempt - 1))
            config.max_delay) ∧
    (config.jitter = true →
      -(min (config.base_delay * config.backoff_multiplier ^ (attempt - 1))
            config.max_delay * config.jitter_range) ≤ jitter_offset →
      jitter_offset
        ≤ min (config.base_delay * config.backoff_multiplier ^ (attempt - 1))
            config.max_delay * config.jitter_range →
      max 0 (min (config.base_delay * config.backoff_multiplier ^ (attempt - 1))
              config.max_delay * (1 - config.jitter_range))
          ≤ calculate_delay attempt config jitter_offset ∧
        calculate_delay attempt config jitter_offset
          ≤ min (config.base_delay * config.backoff_multiplier ^ (attempt - 1))
              config.max_delay * (1 + config.jitter_range)) := by
  have hd0 : 0 ≤ min (config.base_delay * config.backoff_multiplier ^ (attempt - 1))
      config.max_delay :=
    le_min (mul_nonneg hb (pow_nonneg hm _)) hd
  set d := min (config.base_delay * config.backoff_multiplier ^ (attempt - 1))
    config.max_delay with hdd
  constructor
  · intro hj
    simp [calculate_delay, hj, hdd]
  · intro hj hlo hhi
    have heval : calculate_delay attempt config jitter_offset
        = max 0 (d + jitter_offset) := by
      simp [calculate_delay, hj, hdd]
    rw [heval]
    have hdr : 0 ≤ d * config.jitter_range := by linarith
    constructor
    · have h1 : d * (1 - config.jitter_range) ≤ d + jitter_offset := by nlinarith
      exact max_le_max le_rfl h1
    · have h2 : (0:ℚ) ≤ d * (1 + config.jitter_range) := by nlinarith
      have h3 : d + jitter_offset ≤ d * (1 + config.jitter_range) := by nlinarith
      exact max_le h2 h3

/-- Witness for C5: with base 1, multiplier 2, cap 5 at attempt 4 the
no-jitter delay is min(8, 5); with jitter on and a draw of 1/4 (within
±5·0.1) the delay lies between max(0, 5·0.9) and 5·1.1. -/
theorem calculate_delay_spec_witness :
    calculate_delay 4 ⟨3, 1, 2, 5, false, 1/10⟩ 0
        = min ((1:ℚ) * 2 ^ (4 - 1)) 5 ∧
      (max 0 (min ((1:ℚ) * 2 ^ (4 - 1)) 5 * (1 - 1/10))
          ≤ calculate_delay 4 ⟨3, 1, 2, 5, true, 1/10⟩ (1/4) ∧
        calculate_delay 4 ⟨3, 1, 2, 5, true, 1/10⟩ (1/4)
          ≤ min ((1:ℚ) * 2 ^ (4 - 1)) 5 * (1 + 1/10)) := by
  constructor
  · exact (calculate_delay_spec 4 ⟨3, 1, 2, 5, false, 1/10⟩ 0
      (by norm_num) (by norm_num) (by norm_num)).1 rfl
  · exact (calculate_delay_spec 4 ⟨3, 1, 2, 5, true, 1/10⟩ (1/4)
      (by norm_num) (by norm_num) (by norm_num)).2 rfl
      (by norm_num [min_def]) (by norm_num [min_def])

/-- C1 (evaluation at the failing input): a store that raises a retryable
ClientError (ThrottlingException) on every attempt exhausts the 3 DynamoDB
retry attempts, and all four cache operations then RAISE
RetryError{attempts = 3} to their caller — the `except (ClientError,
CacheError)` boundary of cache_service does not catch RetryError — instead
of degrading to absent / False / empty / 0 as the claim states. -/
theorem cache_boundary_leaks_retry_error :
    DynamoDBCacheService.get_weather dynamodbRetryConfig (fun _ => 0)
        (fun _ _ => .error (.clientError "ThrottlingException")) 0 "Seoul"
      = .error (.retryError 3 (some (.clientError "ThrottlingException"))) ∧
    DynamoDBCacheService.set_weather dynamodbRetryConfig (fun _ => 0)
        (fun _ => .error (.clientError "ThrottlingException"))
      = .error (.retryError 3 (some (.clientError "ThrottlingException"))) ∧
    DynamoDBCacheService.batch_get_weather dynamodbRetryConfig (fun _ => 0)
        (fun _ _ => .error (.clientError "ThrottlingException")) 0 ["Seoul"]
      = .error (.retryError 3 (some (.clientError "ThrottlingException"))) ∧
    DynamoDBCacheService.batch_set_weather dynamodbRetryConfig (fun _ => 0)
        (fun _ _ => .error (.clientError "ThrottlingException"))
        [sampleRecord] 100 "created"
      = .error (.retryError 3 (some (.clientError "ThrottlingException"))) :=
  ⟨rfl, rfl, rfl, rfl⟩

/-- C10 (evaluation at the failing input): a provider that answers HTTP 500
on every attempt exhausts the 3 API retry attempts and health_check RAISES
RetryError{attempts = 3} — its except clauses (WeatherAPIError,
aiohttp.ClientError, asyncio.TimeoutError) do not catch RetryError —
instead of returning False; by contrast a non-retryable provider error
(404) does yield False and a success yields True. -/
theorem health_check_raises_on_exhausted_retries :
    OpenWeatherMapClient.health_check apiRetryConfig (fun _ => 0)
        (fun _ => .status 500 "Internal Server Error")
      = .error (.retryError 3 (some (.clientResponseError 500))) ∧
    OpenWeatherMapClient.health_check apiRetryConfig (fun _ => 0)
        (fun _ => .status 404 "city not found")
      = .ok false ∧
    OpenWeatherMapClient.health_check apiRetryConfig (fun _ => 0)
        (fun _ => .success sampleOWM)
      = .ok true :=
  ⟨rfl, rfl, rfl⟩

/-- C8: a cache entry is valid iff now < expiresAt (exclusive boundary), and
an expired entry (expiresAt ≤ now) is indistinguishable from a miss: get
returns None exactly as for an absent item, and batchGet filters it out
exactly as if the store had returned no items. -/
theorem cache_validity_boundary (item : CacheItem) (now : ℤ)
    (config : RetryConfig) (offsets : Nat → ℚ) (city : String)
    (cities : List String) (hattempts : 1 ≤ config.max_attempts) :
    (_is_cache_valid (some item) now = true ↔ now < item.expires_at) ∧
    (item.expires_at ≤ now →
      DynamoDBCacheService.get_weather config offsets
          (fun _ _ => .ok (some item)) now city
        = DynamoDBCacheService.get_weather config offsets
            (fun _ _ => .ok none) now city ∧
      DynamoDBCacheService.get_weather config offsets
          (fun _ _ => .ok (some item)) now city = .ok none ∧
      DynamoDBCacheService.batch_get_weather config offsets
          (fun _ _ => .ok [item]) now cities
        = DynamoDBCacheService.batch_get_weather config offsets
            (fun _ _ => .ok []) now cities) := by
  constructor
  · simp [_is_cache_valid]
  · intro hexp
    have hvalid : _is_cache_valid (some item) now = false := by
      simp [_is_cache_valid]
      omega
    have hop1 : _get_weather_with_retry (fun _ _ => .ok (some item)) now city 1
        = .ok none := by
      simp [_get_weather_with_retry, hvalid]
    have hop2 : _get_weather_with_retry (fun _ _ => .ok none) now city 1
        = .ok (none : Option WeatherResponse) := by
      simp [_get_weather_with_retry]
    have hget1 : DynamoDBCacheService.get_weather config offsets
        (fun _ _ => .ok (some item)) now city = .ok none := by
      unfold DynamoDBCacheService.get_weather
      rw [retry_sync_first_success_aux config dynamodb_retryable_exceptions
        _ offsets _ hattempts hop1]
    have hget2 : DynamoDBCacheService.get_weather config offsets
        (fun _ _ => .ok none) now city = .ok none := by
      unfold DynamoDBCacheService.get_weather
      rw [retry_sync_first_success_aux config dynamodb_retryable_exceptions
        _ offsets _ hattempts hop2]
    refine ⟨hget1.trans hget2.symm, hget1, ?_⟩
    by_cases hc : cities.isEmpty
    · simp [DynamoDBCacheService.batch_get_weather, hc]
    · have hbop1 : _batch_get_weather_with_retry (fun _ _ => .ok [item]) now cities 1
          = .ok [] := by
        simp [_batch_get_weather_with_retry, hvalid]
      have hbop2 : _batch_get_weather_with_retry (fun _ _ => .ok []) now cities 1
          = .ok ([] : List (String × WeatherResponse)) := by
        simp [_batch_get_weather_with_retry]
      unfold DynamoDBCacheService.batch_get_weather
      rw [if_neg hc, if_neg hc,
        retry_sync_first_success_aux config dynamodb_retryable_exceptions
          _ offsets _ hattempts hbop1,
        retry_sync_first_success_aux config dynamodb_retryable_exceptions
          _ offsets _ hattempts hbop2]

/-- Witness for C8: an item whose expiresAt equals the current time (the
exact boundary) is not valid and is served as absent. -/
theorem cache_validity_boundary_witness :
    (_is_cache_valid (some (sampleItem 100)) 100 = true ↔ (100:ℤ) < 100) ∧
    DynamoDBCacheService.get_weather dynamodbRetryConfig (fun _ => 0)
        (fun _ _ => .ok (some (sampleItem 100))) 100 "Seoul" = .ok none := by
  have h := cache_validity_boundary (sampleItem 100) 100 dynamodbRetryConfig
    (fun _ => 0) "Seoul" ["Seoul"] (by decide)
  exact ⟨h.1, (h.2 (by decide)).2.1⟩

/-- C9: two spellings with equal normalization share one cache key, and a
record set (put) under one spelling is retrievable via get under the other
spelling, as the freshly written, still-valid item. -/
theorem cache_key_normalization (c1 c2 : String)
    (h : normalize_city c1 = normalize_city c2)
    (record : WeatherResponse) (hcity : record.city = c1)
    (table : String → Option CacheItem) (expires_at : ℤ) (created_at : String)
    (now : ℤ) (hfresh : now < expires_at)
    (config : RetryConfig) (offsets : Nat → ℚ)
    (hattempts : 1 ≤ config.max_attempts) :
    _generate_cache_key c1 = _generate_cache_key c2 ∧
    DynamoDBCacheService.get_weather config offsets
        (fun _ k => .ok (put_item table (_generate_cache_key record.city)
          (cache_item_of record expires_at created_at) k)) now c2
      = .ok (some (weather_response_of_item
          (cache_item_of record expires_at created_at))) := by
  have hkey : _generate_cache_key c1 = _generate_cache_key c2 := by
    unfold _generate_cache_key
    rw [h]
  refine ⟨hkey, ?_⟩
  have hitem : put_item table (_generate_cache_key record.city)
      (cache_item_of record expires_at created_at) (_generate_cache_key c2)
      = some (cache_item_of record expires_at created_at) := by
    unfold put_item
    rw [hcity, hkey]
    simp
  have hvalid : _is_cache_valid
      (some (cache_item_of record expires_at created_at)) now = true := by
    simp [_is_cache_valid, cache_item_of]
    exact hfresh
  have hop1 : _get_weather_with_retry
      (fun _ k => .ok (put_item table (_generate_cache_key record.city)
        (cache_item_of record expires_at created_at) k)) now c2 1
      = .ok (some (weather_response_of_item
          (cache_item_of record expires_at created_at))) := by
    simp [_get_weather_with_retry, hitem, hvalid]
  unfold DynamoDBCacheService.get_weather
  rw [retry_sync_first_success_aux config dynamodb_retryable_exceptions
    _ offsets _ hattempts hop1]

/-- Witness for C9: a record stored under "  seoul " is retrieved under
"SEOUL" (both normalize to "Seoul"), on an otherwise empty store. -/
theorem cache_key_normalization_witness :
    _generate_cache_key "  seoul " = _generate_cache_key "SEOUL" ∧
    DynamoDBCacheService.get_weather dynamodbRetryConfig (fun _ => 0)
        (fun _ k => .ok (put_item (fun _ => none)
          (_generate_cache_key spelledRecord.city)
          (cache_item_of spelledRecord 600 "created") k)) 0 "SEOUL"
      = .ok (some (weather_response_of_item
          (cache_item_of spelledRecord 600 "created"))) :=
  cache_key_normalization "  seoul " "SEOUL" rfl spelledRecord rfl
    (fun _ => none) 600 "created" 0 (by decide) dynamodbRetryConfig
    (fun _ => 0) (by decide)

/-- Counterexample for C6: the key list batchGet sends is NOT de-duplicated —
on ["Tokyo", "Tokyo", "Seoul"] the code requests the key of Tokyo twice,
whereas the spec's de-duplicate-then-cap construction requests it once. -/
theorem batch_get_keys_not_deduplicated :
    batch_get_request_keys ["Tokyo", "Tokyo", "Seoul"]
        ≠ batch_get_request_keys_spec ["Tokyo", "Tokyo", "Seoul"] ∧
    batch_get_request_keys ["Tokyo", "Tokyo", "Seoul"]
        = ["WEATHER#Tokyo", "WEATHER#Tokyo", "WEATHER#Seoul"] ∧
    batch_get_request_keys_spec ["Tokyo", "Tokyo", "Seoul"]
        = ["WEATHER#Tokyo", "WEATHER#Seoul"] := by
  refine ⟨by decide, rfl, rfl⟩

/-- C6 (amended): batchGet builds its key list from the first 100 entries of
the input list verbatim (capped at the store limit of 100, silently
truncated, but NOT de-duplicated — duplicates among the first 100 entries
produce duplicate keys); batchSet writes at most the first 25 records,
silently truncating, and returns the number written (min(25, len)). -/
theorem batch_cap_truncation (cities : List String) (config : RetryConfig)
    (offsets : Nat → ℚ) (weather_data_list : List WeatherResponse)
    (expires_at : ℤ) (created_at : String)
    (write : Nat → List (String × CacheItem) → Except Exc Unit)
    (hattempts : 1 ≤ config.max_attempts)
    (hwrite : write 1 (batch_set_items weather_data_list expires_at created_at)
      = .ok ()) :
    batch_get_request_keys cities = (cities.take 100).map _generate_cache_key ∧
    (batch_get_request_keys cities).length ≤ 100 ∧
    batch_set_items weather_data_list expires_at created_at
      = (weather_data_list.take 25).map
          (fun w => (_generate_cache_key w.city,
            cache_item_of w expires_at created_at)) ∧
    DynamoDBCacheService.batch_set_weather config offsets write
        weather_data_list expires_at created_at
      = .ok (min 25 weather_data_list.length) := by
  refine ⟨rfl, ?_, rfl, ?_⟩
  · simp [batch_get_request_keys, List.length_map, List.length_take]
  · by_cases hempty : weather_data_list.isEmpty
    · have hnil : weather_data_list = [] := by
        cases weather_data_list
        · rfl
        · simp [List.isEmpty] at hempty
      subst hnil
      simp [DynamoDBCacheService.batch_set_weather]
    · have hop1 : _batch_set_weather_with_retry write
          (batch_set_items weather_data_list expires_at created_at) 1
          = .ok (batch_set_items weather_data_list expires_at created_at).length := by
        simp [_batch_set_weather_with_retry, hwrite]
      unfold DynamoDBCacheService.batch_set_weather
      rw [if_neg hempty,
        retry_sync_first_success_aux config dynamodb_retryable_exceptions
          _ offsets _ hattempts hop1]
      have hlen : (batch_set_items weather_data_list expires_at created_at).length
          = min 25 weather_data_list.length := by
        simp [batch_set_items, List.length_map, List.length_take]
      simp [hlen]

/-- Witness for C6 (amended): writing 30 records with a succeeding store
writes/returns 25; the key-list length bound holds on a concrete list. -/
theorem batch_cap_truncation_witness :
    (batch_get_request_keys ["Seoul"]).length ≤ 100 ∧
    DynamoDBCacheService.batch_set_weather dynamodbRetryConfig (fun _ => 0)
        (fun _ _ => .ok ()) (manyRecords 30) 600 "created" = .ok 25 := by
  have h := batch_cap_truncation ["Seoul"] dynamodbRetryConfig (fun _ => 0)
    (manyRecords 30) 600 "created" (fun _ _ => .ok ()) (by decide) rfl
  exact ⟨h.2.1, h.2.2.2⟩

/-- C2: the orchestrator is a read-through cache — on a cache hit the cached
record is returned with the provider never called and nothing written; on a
miss with provider success the converted record is both written to the cache
and returned (for ANY value of the ignored cache-write result); on a miss
with provider failure (the provider's declared error type, WeatherAPIError)
the provider's error is propagated unchanged. -/
theorem read_through_single (cached : Option WeatherResponse)
    (provider : Except Exc OpenWeatherMapResponse) (set_result : Bool)
    (now_iso city : String) :
    (∀ r, cached = some r →
      WeatherService.get_weather cached provider set_result now_iso city
        = ⟨.ok r, false, none⟩) ∧
    (cached = none → ∀ w, provider = .ok w →
      WeatherService.get_weather cached provider set_result now_iso city
        = ⟨.ok (_convert_to_weather_response w now_iso), true,
           some (_convert_to_weather_response w now_iso)⟩) ∧
    (cached = none → ∀ e, provider = .error e → e.isWeatherAPIError = true →
      WeatherService.get_weather cached provider set_result now_iso city
        = ⟨.error e, true, none⟩) := by
  refine ⟨?_, ?_, ?_⟩
  · intro r hr
    subst hr
    rfl
  · intro hc w hw
    subst hc
    subst hw
    rfl
  · intro hc e he hwe
    subst hc
    subst he
    simp [WeatherService.get_weather, hwe]

/-- Witness for C2: hit returns the cached Seoul record without the
provider; miss converts and caches the fetched Paris payload whatever the
write reports; a 404 WeatherAPIError from the provider passes through. -/
theorem read_through_single_witness :
    WeatherService.get_weather (some sampleRecord) (.error .timeoutError) true
        "ts" "Seoul"
      = ⟨.ok sampleRecord, false, none⟩ ∧
    WeatherService.get_weather none (.ok sampleOWM) false "ts" "Paris"
      = ⟨.ok (_convert_to_weather_response sampleOWM "ts"), true,
         some (_convert_to_weather_response sampleOWM "ts")⟩ ∧
    WeatherService.get_weather none
        (.error (.weatherAPIError "City not found" (some 404))) true
        "ts" "Atlantis"
      = ⟨.error (.weatherAPIError "City not found" (some 404)), true, none⟩ :=
  ⟨(read_through_single (some sampleRecord) (.error .timeoutError) true
      "ts" "Seoul").1 sampleRecord rfl,
   (read_through_single none (.ok sampleOWM) false "ts" "Paris").2.1
      rfl sampleOWM rfl,
   (read_through_single none
      (.error (.weatherAPIError "City not found" (some 404))) true
      "ts" "Atlantis").2.2 rfl _ rfl rfl⟩

/-- Looking up the key just set by `dictSet` yields the new value. -/
theorem dictSet_lookup_self_aux {α : Type} (m : List (String × α)) (k : String)
    (v : α) : (dictSet m k v).lookup k = some v := by
  induction m with
  | nil => simp [dictSet, List.lookup]
  | cons p rest ih =>
    obtain ⟨k', v'⟩ := p
    by_cases hk : k' = k
    · subst hk
      simp [dictSet, List.lookup]
    · have hne : (k == k') = false :=
        beq_eq_false_iff_ne.mpr (fun hh => hk hh.symm)
      simp [dictSet, hk, List.lookup, hne, ih]

/-- `dictSet` does not disturb lookups at other keys. -/
theorem dictSet_lookup_other_aux {α : Type} (m : List (String × α))
    (k k' : String) (v : α) (h : k' ≠ k) :
    (dictSet m k v).lookup k' = m.lookup k' := by
  induction m with
  | nil =>
    have hne : (k' == k) = false := beq_eq_false_iff_ne.mpr h
    simp [dictSet, List.lookup, hne]
  | cons p rest ih =>
    obtain ⟨k0, v0⟩ := p
    by_cases hk : k0 = k
    · subst hk
      have hne : (k' == k0) = false := beq_eq_false_iff_ne.mpr h
      simp [dictSet, List.lookup, hne]
    · simp [dictSet, hk, List.lookup, ih]

/-- Lookup in the `api_results` dict built by the fold in
WeatherService.get_batch_weather: a city in the fetched list with a provider
hit maps to its converted record; any other city falls back to the initial
accumulator. -/
theorem api_results_lookup_aux (m : List (String × OpenWeatherMapResponse))
    (now_iso : String) (ks : List String)
    (acc : List (String × WeatherResponse)) (c : String) :
    (ks.foldl (fun acc c' =>
        match m.lookup c' with
        | some w => dictSet acc c' (_convert_to_weather_response w now_iso)
        | none => acc) acc).lookup c
      = if c ∈ ks ∧ (m.lookup c).isSome then
          (m.lookup c).map (fun w => _convert_to_weather_response w now_iso)
        else acc.lookup c := by
  induction ks generalizing acc with
  | nil => simp
  | cons k rest ih =>
    rw [List.foldl_cons, ih]
    by_cases hck : c = k
    · subst hck
      cases hm : m.lookup c with
      | none =>
        simp [hm]
      | some w =>
        by_cases hcr : c ∈ rest
        · simp [hm, hcr]
        · simp [hm, hcr, dictSet_lookup_self_aux]
    · by_cases hcr : c ∈ rest <;> by_cases hsome : (m.lookup c).isSome <;>
        cases hmk : m.lookup k <;>
        simp [hmk, List.mem_cons, hck, hcr, hsome,
          dictSet_lookup_other_aux _ _ _ _ hck]

/-- C7: getBatchWeather rejects an empty list and a list longer than
maxAllowed with the corresponding WeatherAPIError; otherwise it
de-duplicates preserving first-occurrence order, assembles the results in
that order taking each unique city from the cache dict if present, else
from the fresh-fetch map if present, else omitting it, and returns
totalCities = number of unique cities and successfulRequests = length of
the assembled results. -/
theorem batch_orchestration
    (cache_lookup : List String → List (String × WeatherResponse))
    (api_lookup : List String → List (String × OpenWeatherMapResponse))
    (now_iso : String) (cities : List String) (max_cities : Nat) :
    (cities = [] →
      WeatherService.get_batch_weather cache_lookup api_lookup now_iso cities
          max_cities
        = .error (.weatherAPIError "Cities list cannot be empty" none)) ∧
    (max_cities < cities.length →
      WeatherService.get_batch_weather cache_lookup api_lookup now_iso cities
          max_cities
        = .error (.weatherAPIError
            ("Maximum " ++ toString max_cities ++ " cities allowed per batch request")
            none)) ∧
    (cities ≠ [] → cities.length ≤ max_cities →
      ∃ resp,
        WeatherService.get_batch_weather cache_lookup api_lookup now_iso cities
            max_cities = .ok resp ∧
        resp.results = (dedup_first cities).filterMap (fun c =>
          match (cache_lookup (dedup_first cities)).lookup c with
          | some r => some r
          | none =>
            ((api_lookup ((dedup_first cities).filter
                (fun c' => ((cache_lookup (dedup_first cities)).lookup c').isNone))).lookup c).map
              (fun w => _convert_to_weather_response w now_iso)) ∧
        resp.total_cities = (dedup_first cities).length ∧
        resp.successful_requests = resp.results.length) := by
  refine ⟨?_, ?_, ?_⟩
  · intro hc
    subst hc
    rfl
  · intro hlen
    have hne : cities ≠ [] := by
      intro h
      rw [h] at hlen
      simp at hlen
    have hemp : cities.isEmpty = false := by
      cases cities with
      | nil => exact absurd rfl hne
      | cons a l => rfl
    simp only [WeatherService.get_batch_weather, hemp, Bool.false_eq_true,
      if_false]
    rw [if_pos hlen]
  · intro hne hlen
    have hemp : cities.isEmpty = false := by
      cases cities with
      | nil => exact absurd rfl hne
      | cons a l => rfl
    have hnotlt : ¬(max_cities < cities.length) := by omega
    simp only [WeatherService.get_batch_weather, hemp, Bool.false_eq_true,
      if_false]
    rw [if_neg hnotlt]
    refine ⟨_, rfl, ?_, rfl, rfl⟩
    apply List.filterMap_congr
    intro c hc
    cases hcache : (cache_lookup (dedup_first cities)).lookup c with
    | some r => simp [Option.orElse, hcache]
    | none =>
      simp only [Option.orElse, hcache]
      have hmem : c ∈ (dedup_first cities).filter
          (fun c' => ((cache_lookup (dedup_first cities)).lookup c').isNone) := by
        rw [List.mem_filter]
        exact ⟨hc, by simp [hcache]⟩
      rw [api_results_lookup_aux]
      by_cases hsome : ((api_lookup ((dedup_first cities).filter
          (fun c' => ((cache_lookup (dedup_first cities)).lookup c').isNone))).lookup c).isSome
      · simp [hmem, hsome]
      · have hnone := Option.not_isSome_iff_eq_none.mp hsome
        simp [hmem, hsome, hnone, List.lookup]

/-- Witness for C7: the empty list is rejected; ["Tokyo", "Seoul", "Tokyo"]
with Seoul cached and Tokyo freshly fetched yields the two records in
first-occurrence order with totalCities = successfulRequests = 2. -/
theorem batch_orchestration_witness :
    WeatherService.get_batch_weather (fun _ => []) (fun _ => []) "ts"
        ([] : List String) 10
      = .error (.weatherAPIError "Cities list cannot be empty" none) ∧
    WeatherService.get_batch_weather (fun _ => [("Seoul", sampleRecord)])
        (fun _ => [("Tokyo", sampleOWM)]) "ts" ["Tokyo", "Seoul", "Tokyo"] 10
      = .ok ⟨[_convert_to_weather_response sampleOWM "ts", sampleRecord], 2, 2⟩ := by
  refine ⟨(batch_orchestration (fun _ => []) (fun _ => []) "ts" [] 10).1 rfl, ?_⟩
  rfl
